import Mathlib

/-!
# Verification of the Frostgate SDK message envelope (src/messages/mod.rs)

Shallow embedding of the message data model of the frostgate-sdk repository:
the `ChainId` enumeration with its numeric encoding, the `FrostMessage`
envelope with its constructor and accessors, the `MessageEvent` observation
record, and the serde-derived JSON wire (de)serialization of these types.
Machine integers are carried as `Fin (2 ^ w)`; no arithmetic is performed on
them. Fallible operations return `Except String`.
-/

set_option maxHeartbeats 1000000
set_option maxRecDepth 8192

namespace Frostgate

/-- The structured serialization tree produced and consumed by the serde
derives in `src/messages/mod.rs` when the backend is a JSON serializer
(as exercised by the `frost_message_basic` test). Numbers are unsigned in
every field of this schema, so `num` carries a `Nat`. -/
inductive Json where
  | null : Json
  | bool (b : Bool) : Json
  | num (n : Nat) : Json
  | str (s : String) : Json
  | arr (items : List Json) : Json
  | obj (fields : List (String × Json)) : Json

/-! ## Hexadecimal digits and fixed-width hex strings (UUID text form) -/

/-- Lowercase hexadecimal digit character for a value below 16, computed
from the character code. -/
def hexChar (d : Nat) : Char :=
  if d < 10 then Char.ofNat (d + 48) else Char.ofNat (d + 87)

/-- Value of a hexadecimal digit character (lowercase or uppercase),
computed from the character code. -/
def hexVal (c : Char) : Option Nat :=
  if 48 ≤ c.toNat ∧ c.toNat ≤ 57 then some (c.toNat - 48)
  else if 97 ≤ c.toNat ∧ c.toNat ≤ 102 then some (c.toNat - 87)
  else if 65 ≤ c.toNat ∧ c.toNat ≤ 70 then some (c.toNat - 55)
  else none

/-- Big-endian fixed-width hex rendering of `m` over `k` digits. -/
def toHexFixed : Nat → Nat → List Char
  | 0, _ => []
  | k + 1, m => hexChar (m / 16 ^ k) :: toHexFixed k (m % 16 ^ k)

/-- Parse exactly `k` hex digits from the front of `cs`, returning the value
and the remaining characters. -/
def parseHexGroup : Nat → List Char → Option (Nat × List Char)
  | 0, cs => some (0, cs)
  | _ + 1, [] => none
  | k + 1, c :: cs =>
    match hexVal c with
    | none => none
    | some d =>
      match parseHexGroup k cs with
      | none => none
      | some (m, rest) => some (d * 16 ^ k + m, rest)

theorem hexVal_hexChar (d : Nat) (h : d < 16) : hexVal (hexChar d) = some d := by
  interval_cases d <;> decide

theorem parseHexGroup_toHexFixed (k : Nat) :
    ∀ (m : Nat), m < 16 ^ k → ∀ (rest : List Char),
      parseHexGroup k (toHexFixed k m ++ rest) = some (m, rest) := by
  induction k with
  | zero =>
    intro m hm rest
    interval_cases m
    rfl
  | succ k ih =>
    intro m hm rest
    have hdiv : m / 16 ^ k < 16 := by
      have : m < 16 * 16 ^ k := by
        calc m < 16 ^ (k + 1) := hm
        _ = 16 * 16 ^ k := by ring
      exact Nat.div_lt_of_lt_mul (by omega)
    have hmod : m % 16 ^ k < 16 ^ k := Nat.mod_lt _ (Nat.pos_pow_of_pos k (by omega))
    simp only [toHexFixed, parseHexGroup, List.cons_append, List.append_eq,
      hexVal_hexChar _ hdiv]
    rw [ih (m % 16 ^ k) hmod rest]
    have hdm : m / 16 ^ k * 16 ^ k + m % 16 ^ k = m := by
      have h := Nat.div_add_mod m (16 ^ k)
      rw [Nat.mul_comm] at h
      exact h
    exact congrArg (fun t => some (t, rest)) hdm

/-! ## UUID (external `uuid` crate)

Modelled from the spec: `id: 128-bit UUID (string or 16-byte form)`,
"version-4 random UUID semantics: 122 bits of randomness". The `uuid` crate
is not part of this repository; its value is a 128-bit integer, its JSON
serialization is the canonical lowercase hyphenated 8-4-4-4-12 hex string,
and its deserialization parses that string back. -/
structure Uuid where
  val : Fin (2 ^ 128)
deriving DecidableEq

/-- Canonical hyphenated lowercase text form of a UUID (8-4-4-4-12 hex). -/
def uuidChars (u : Uuid) : List Char :=
  toHexFixed 8 (u.val / 16 ^ 24) ++ '-' ::
  (toHexFixed 4 (u.val / 16 ^ 20 % 16 ^ 4) ++ '-' ::
  (toHexFixed 4 (u.val / 16 ^ 16 % 16 ^ 4) ++ '-' ::
  (toHexFixed 4 (u.val / 16 ^ 12 % 16 ^ 4) ++ '-' ::
  toHexFixed 12 (u.val % 16 ^ 12))))

/-- UUID rendered as a string, as the `uuid` crate serializes it to JSON. -/
def uuidToString (u : Uuid) : String :=
  String.mk (uuidChars u)

/-- Expect a hyphen as the next character, returning the remainder. -/
def expectDash : List Char → Option (List Char)
  | '-' :: rest => some rest
  | _ => none

/-- Parse the canonical hyphenated UUID text form back to a 128-bit value. -/
def parseUuidChars (cs : List Char) : Option (Fin (2 ^ 128)) :=
  (parseHexGroup 8 cs).bind fun p1 =>
  (expectDash p1.2).bind fun r1 =>
  (parseHexGroup 4 r1).bind fun p2 =>
  (expectDash p2.2).bind fun r2 =>
  (parseHexGroup 4 r2).bind fun p3 =>
  (expectDash p3.2).bind fun r3 =>
  (parseHexGroup 4 r3).bind fun p4 =>
  (expectDash p4.2).bind fun r4 =>
  (parseHexGroup 12 r4).bind fun p5 =>
  match p5.2 with
  | [] =>
    if h : p1.1 * 16 ^ 24 + p2.1 * 16 ^ 20 + p3.1 * 16 ^ 16 +
        p4.1 * 16 ^ 12 + p5.1 < 2 ^ 128 then
      some ⟨_, h⟩
    else none
  | _ :: _ => none

/-- Deserialize a UUID from its JSON representation (a string). -/
def deserializeUuid (j : Json) : Except String Uuid :=
  match j with
  | .str s =>
    match parseUuidChars s.toList with
    | some v => .ok ⟨v⟩
    | none => .error "invalid UUID string"
  | _ => .error "UUID: expected string"

theorem hexSplitStep (v a b : Nat) :
    v / (a * b) * (a * b) + v / b % a * b = v / b * b := by
  rw [show v / (a * b) = v / b / a from by rw [Nat.div_div_eq_div_mul, Nat.mul_comm]]
  have h := Nat.div_add_mod (v / b) a
  calc v / b / a * (a * b) + v / b % a * b
      = (a * (v / b / a) + v / b % a) * b := by ring
    _ = v / b * b := by rw [h]

theorem parseUuidChars_uuidChars (u : Uuid) :
    parseUuidChars (uuidChars u) = some u.val := by
  obtain ⟨⟨v, hv⟩⟩ := u
  have h128 : (16 : Nat) ^ 32 = 2 ^ 128 := by norm_num
  have hg1 : v / 16 ^ 24 < 16 ^ 8 := by
    apply Nat.div_lt_of_lt_mul
    calc v < 2 ^ 128 := hv
    _ = 16 ^ 24 * 16 ^ 8 := by norm_num
  have hg2 : v / 16 ^ 20 % 16 ^ 4 < 16 ^ 4 := Nat.mod_lt _ (by norm_num)
  have hg3 : v / 16 ^ 16 % 16 ^ 4 < 16 ^ 4 := Nat.mod_lt _ (by norm_num)
  have hg4 : v / 16 ^ 12 % 16 ^ 4 < 16 ^ 4 := Nat.mod_lt _ (by norm_num)
  have hg5 : v % 16 ^ 12 < 16 ^ 12 := Nat.mod_lt _ (by norm_num)
  have hsum : v / 16 ^ 24 * 16 ^ 24 + v / 16 ^ 20 % 16 ^ 4 * 16 ^ 20 +
      v / 16 ^ 16 % 16 ^ 4 * 16 ^ 16 + v / 16 ^ 12 % 16 ^ 4 * 16 ^ 12 +
      v % 16 ^ 12 = v := by
    have h1 := hexSplitStep v (16 ^ 4) (16 ^ 20)
    have h2 := hexSplitStep v (16 ^ 4) (16 ^ 16)
    have h3 := hexSplitStep v (16 ^ 4) (16 ^ 12)
    rw [show (16 : Nat) ^ 4 * 16 ^ 20 = 16 ^ 24 from by ring] at h1
    rw [show (16 : Nat) ^ 4 * 16 ^ 16 = 16 ^ 20 from by ring] at h2
    rw [show (16 : Nat) ^ 4 * 16 ^ 12 = 16 ^ 16 from by ring] at h3
    have h4 := Nat.div_add_mod v (16 ^ 12)
    rw [Nat.mul_comm (16 ^ 12) (v / 16 ^ 12)] at h4
    calc v / 16 ^ 24 * 16 ^ 24 + v / 16 ^ 20 % 16 ^ 4 * 16 ^ 20 +
          v / 16 ^ 16 % 16 ^ 4 * 16 ^ 16 + v / 16 ^ 12 % 16 ^ 4 * 16 ^ 12 +
          v % 16 ^ 12
        = v / 16 ^ 20 * 16 ^ 20 + v / 16 ^ 16 % 16 ^ 4 * 16 ^ 16 +
          v / 16 ^ 12 % 16 ^ 4 * 16 ^ 12 + v % 16 ^ 12 := by rw [h1]
      _ = v / 16 ^ 16 * 16 ^ 16 + v / 16 ^ 12 % 16 ^ 4 * 16 ^ 12 +
          v % 16 ^ 12 := by rw [h2]
      _ = v / 16 ^ 12 * 16 ^ 12 + v % 16 ^ 12 := by rw [h3]
      _ = v := h4
  have h5 := parseHexGroup_toHexFixed 12 (v % 16 ^ 12) hg5 []
  rw [List.append_nil] at h5
  simp only [uuidChars, parseUuidChars,
    parseHexGroup_toHexFixed 8 _ hg1,
    parseHexGroup_toHexFixed 4 _ hg2,
    parseHexGroup_toHexFixed 4 _ hg3,
    parseHexGroup_toHexFixed 4 _ hg4, h5,
    expectDash, Option.some_bind]
  have hlt : v / 16 ^ 24 * 16 ^ 24 + v / 16 ^ 20 % 16 ^ 4 * 16 ^ 20 +
      v / 16 ^ 16 % 16 ^ 4 * 16 ^ 16 + v / 16 ^ 12 % 16 ^ 4 * 16 ^ 12 +
      v % 16 ^ 12 < 2 ^ 128 := by rw [hsum]; exact hv
  rw [dif_pos hlt]
  exact congrArg some (Fin.ext hsum)

theorem deserializeUuid_roundtrip (u : Uuid) :
    deserializeUuid (.str (uuidToString u)) = .ok u := by
  simp only [deserializeUuid, uuidToString, String.toList, parseUuidChars_uuidChars]

/-! ## ChainId (`src/messages/mod.rs` lines 11-64) -/

/-- Supported chain identifiers (`pub enum ChainId`). The `Unknown` variant
carries the `#[serde(other)]` attribute in the source. -/
inductive ChainId where
  | Ethereum : ChainId
  | Polkadot : ChainId
  | Solana : ChainId
  | Unknown : ChainId
deriving DecidableEq

/-- `ChainId::to_u64`: convert chain ID to u64 for serialization. The result
is a `Nat` that is always a valid u64 (`u64::MAX = 2 ^ 64 - 1`). -/
def ChainId.to_u64 : ChainId → Nat
  | .Ethereum => 0
  | .Polkadot => 1
  | .Solana => 2
  | .Unknown => 2 ^ 64 - 1

/-- `impl TryFrom<u64> for ChainId`: `try_from` over the u64 range, mirroring
the Rust `Result<ChainId, ()>` as `Except Unit ChainId`. -/
def ChainId.try_from (value : Nat) : Except Unit ChainId :=
  match value with
  | 0 => .ok .Ethereum
  | 1 => .ok .Polkadot
  | 2 => .ok .Solana
  | _ => .ok .Unknown

/-- `impl Display for ChainId`: human-readable chain name. -/
def ChainId.display : ChainId → String
  | .Ethereum => "Ethereum"
  | .Polkadot => "Polkadot"
  | .Solana => "Solana"
  | .Unknown => "Unknown"

/-- Serde serialization of the `ChainId` unit enum: externally tagged, so each
variant becomes its name as a JSON string. -/
def serializeChainId (c : ChainId) : Json :=
  .str c.display

/-- Serde deserialization of `ChainId`: the three named variants match their
names; because `Unknown` is marked `#[serde(other)]`, every other variant
string deserializes to `Unknown` instead of erroring. Non-string input is a
type error. -/
def deserializeChainId (j : Json) : Except String ChainId :=
  match j with
  | .str s =>
    if s = "Ethereum" then .ok .Ethereum
    else if s = "Polkadot" then .ok .Polkadot
    else if s = "Solana" then .ok .Solana
    else .ok .Unknown
  | _ => .error "ChainId: expected variant string"

theorem deserializeChainId_roundtrip (c : ChainId) :
    deserializeChainId (serializeChainId c) = .ok c := by
  cases c <;> rfl

/-! ## Proof and ProofMetadata (`src/messages/mod.rs` lines 66-73) -/

/-- Modelled from the spec: `ProofMetadata` is imported from the external
`frostgate_zkip` crate, which is not part of this repository; the spec calls
it an "opaque structure from the proof engine" that "this core neither
inspects nor validates". It is modelled as an opaque serializable blob whose
serialization is its own content. -/
structure ProofMetadata where
  raw : Json

/-- `pub struct Proof`: a zero-knowledge proof with its metadata. Bytes are
`Fin 256` values, matching `Vec<u8>`. -/
structure Proof where
  data : List (Fin 256)
  metadata : ProofMetadata

/-! ## FrostMessage (`src/messages/mod.rs` lines 75-155) -/

/-- `pub struct FrostMessage`: the canonical cross-chain message structure.
`u64` fields are `Fin (2 ^ 64)`, the `u128` fee is `Fin (2 ^ 128)`, and the
`HashMap<String, String>` metadata is carried as its list of key-value
entries. -/
structure FrostMessage where
  id : Uuid
  from_chain : ChainId
  to_chain : ChainId
  payload : List (Fin 256)
  proof : Option Proof
  timestamp : Fin (2 ^ 64)
  nonce : Fin (2 ^ 64)
  signature : Option (List (Fin 256))
  fee : Option (Fin (2 ^ 128))
  metadata : Option (List (String × String))

/-- State of the random source consumed by `Uuid::new_v4()`: a stream of
128-bit entropy draws together with the position of the next draw. -/
structure RandState where
  entropy : Nat → Fin (2 ^ 128)
  idx : Nat

/-- Force the version-4/variant-1 bits of a 128-bit value, as `Uuid::new_v4`
does: the version nibble (bits 76-79 of the big-endian value) becomes `0100`
and the two variant bits (bits 62-63) become `10`, leaving 122 random bits. -/
def setV4 (n : Fin (2 ^ 128)) : Fin (2 ^ 128) :=
  ⟨(Nat.lor (Nat.land n.val (2 ^ 128 - 1 - 15 * 2 ^ 76 - 3 * 2 ^ 62))
      (4 * 2 ^ 76 + 2 * 2 ^ 62)) % 2 ^ 128,
    Nat.mod_lt _ (by norm_num)⟩

/-- `Uuid::new_v4()`: draw 128 bits of entropy, force the version and variant
bits, and advance the random source. -/
def uuidNewV4 (s : RandState) : Uuid × RandState :=
  (⟨setV4 (s.entropy s.idx)⟩, ⟨s.entropy, s.idx + 1⟩)

/-- `FrostMessage::new`: construct a new unsigned FrostMessage. The random
source consumed by `Uuid::new_v4()` is passed and returned explicitly. -/
def FrostMessage.new (from_chain : ChainId) (to_chain : ChainId)
    (payload : List (Fin 256)) (nonce : Fin (2 ^ 64)) (timestamp : Fin (2 ^ 64))
    (s : RandState) : FrostMessage × RandState :=
  let (id, s') := uuidNewV4 s
  ({ id := id
     from_chain := from_chain
     to_chain := to_chain
     payload := payload
     proof := none
     timestamp := timestamp
     nonce := nonce
     signature := none
     fee := none
     metadata := none }, s')

/-! ## CrossChainMessage trait implementation for FrostMessage
(`src/messages/mod.rs` lines 133-155) -/

namespace CrossChainMessage

/-- `CrossChainMessage::id` for `FrostMessage`: returns `self.id`. -/
def id (m : FrostMessage) : Uuid := m.id

/-- `CrossChainMessage::payload` for `FrostMessage`: returns the payload
bytes. -/
def payload (m : FrostMessage) : List (Fin 256) := m.payload

/-- `CrossChainMessage::chain_specific_data` for `FrostMessage`: the source
returns `None` (FrostMessage uses the metadata map for chain-specific
data). -/
def chain_specific_data (_m : FrostMessage) : Option (List (Fin 256)) := none

end CrossChainMessage

/-! ## MessageStatus and MessageEvent (`src/messages/mod.rs` lines 157-186) -/

/-- `pub enum MessageStatus`: relay pipeline progress states. -/
inductive MessageStatus where
  | Pending : MessageStatus
  | InFlight : MessageStatus
  | Confirmed : MessageStatus
  | Failed (reason : String) : MessageStatus
deriving DecidableEq

/-- `pub struct MessageEvent`: binds a message to its on-chain observation.
`TxHash` is `Vec<u8>`, so it is a byte list here. -/
structure MessageEvent where
  message : FrostMessage
  tx_hash : Option (List (Fin 256))
  block_number : Option (Fin (2 ^ 64))

/-! ## Serde-derived JSON serialization of the message types

The serde derives on `FrostMessage`, `Proof` and `MessageEvent` produce an
externally structured representation: a struct becomes an object with one
entry per field in declaration order, `Vec<u8>` becomes an array of numbers,
an `Option` becomes `null` when absent and the value's representation when
present (an absent `Option` field also reads back as `None`), and the
string-to-string map becomes an object. -/

/-- Serialize a byte vector (`Vec<u8>`) as a JSON array of numbers. -/
def serializeBytes (bs : List (Fin 256)) : Json :=
  .arr (bs.map fun b => .num b.val)

/-- Deserialize one byte, checking the u8 range. -/
def deserializeByte (j : Json) : Except String (Fin 256) :=
  match j with
  | .num n => if h : n < 256 then .ok ⟨n, h⟩ else .error "byte out of range"
  | _ => .error "byte: expected number"

/-- Deserialize a list of JSON items as bytes. -/
def deserializeByteItems : List Json → Except String (List (Fin 256))
  | [] => .ok []
  | j :: js =>
    (deserializeByte j).bind fun b =>
    (deserializeByteItems js).bind fun bs =>
    .ok (b :: bs)

/-- Deserialize a byte vector (`Vec<u8>`) from a JSON array. -/
def deserializeBytes (j : Json) : Except String (List (Fin 256)) :=
  match j with
  | .arr items => deserializeByteItems items
  | _ => .error "bytes: expected array"

/-- Deserialize a `u64`, checking the range. -/
def deserializeU64 (j : Json) : Except String (Fin (2 ^ 64)) :=
  match j with
  | .num n => if h : n < 2 ^ 64 then .ok ⟨n, h⟩ else .error "u64 out of range"
  | _ => .error "u64: expected number"

/-- Deserialize a `u128`, checking the range. -/
def deserializeU128 (j : Json) : Except String (Fin (2 ^ 128)) :=
  match j with
  | .num n => if h : n < 2 ^ 128 then .ok ⟨n, h⟩ else .error "u128 out of range"
  | _ => .error "u128: expected number"

/-- Serialize an optional value: `None` becomes `null`. -/
def serializeOption (f : α → Json) : Option α → Json
  | none => .null
  | some a => f a

/-- Serialize the `HashMap<String, String>` metadata entries as an object. -/
def serializeStringMap (kvs : List (String × String)) : Json :=
  .obj (kvs.map fun p => (p.1, .str p.2))

/-- Deserialize object entries as string-to-string map entries. -/
def deserializeStringEntries : List (String × Json) → Except String (List (String × String))
  | [] => .ok []
  | (k, .str v) :: rest =>
    (deserializeStringEntries rest).bind fun tail =>
    .ok ((k, v) :: tail)
  | _ => .error "metadata: expected string value"

/-- Deserialize the metadata map from a JSON object. -/
def deserializeStringMap (j : Json) : Except String (List (String × String)) :=
  match j with
  | .obj fs => deserializeStringEntries fs
  | _ => .error "metadata: expected object"

/-- Serde(serialize) for `Proof`: object with `data` and `metadata` entries. -/
def serializeProof (p : Proof) : Json :=
  .obj [("data", serializeBytes p.data), ("metadata", p.metadata.raw)]

/-- Serde(deserialize) for `Proof`. The metadata entry is taken opaquely, as
the external proof engine owns its shape. -/
def deserializeProof (j : Json) : Except String Proof :=
  match j with
  | .obj fs =>
    match fs.lookup "data" with
    | none => .error "Proof: missing field data"
    | some dj =>
      (deserializeBytes dj).bind fun data =>
      match fs.lookup "metadata" with
      | none => .error "Proof: missing field metadata"
      | some mj => .ok ⟨data, ⟨mj⟩⟩
  | _ => .error "Proof: expected object"

/-- Read a required struct field by name; a missing field is an error. -/
def readField (fs : List (String × Json)) (name : String)
    (f : Json → Except String α) : Except String α :=
  match fs.lookup name with
  | none => .error ("missing field: " ++ name)
  | some j => f j

/-- Whether a JSON value is `null`. -/
def Json.isNull : Json → Bool
  | .null => true
  | _ => false

/-- Read an optional struct field by name: a missing entry and an explicit
`null` both give `None`, as serde does for `Option` fields. -/
def readOptField (fs : List (String × Json)) (name : String)
    (f : Json → Except String α) : Except String (Option α) :=
  match fs.lookup name with
  | none => .ok none
  | some j =>
    if j.isNull then .ok none
    else (f j).bind fun a => .ok (some a)

/-- Serde(serialize) for `FrostMessage`: one object entry per field, in
declaration order. -/
def serializeFrostMessage (m : FrostMessage) : Json :=
  .obj [("id", .str (uuidToString m.id)),
        ("from_chain", serializeChainId m.from_chain),
        ("to_chain", serializeChainId m.to_chain),
        ("payload", serializeBytes m.payload),
        ("proof", serializeOption serializeProof m.proof),
        ("timestamp", .num m.timestamp.val),
        ("nonce", .num m.nonce.val),
        ("signature", serializeOption serializeBytes m.signature),
        ("fee", serializeOption (fun f => .num f.val) m.fee),
        ("metadata", serializeOption serializeStringMap m.metadata)]

/-- Serde(deserialize) for `FrostMessage`: fields are looked up by name;
required fields error when missing, `Option` fields default to `None`. -/
def deserializeFrostMessage (j : Json) : Except String FrostMessage :=
  match j with
  | .obj fs =>
    (readField fs "id" deserializeUuid).bind fun id =>
    (readField fs "from_chain" deserializeChainId).bind fun from_chain =>
    (readField fs "to_chain" deserializeChainId).bind fun to_chain =>
    (readField fs "payload" deserializeBytes).bind fun payload =>
    (readOptField fs "proof" deserializeProof).bind fun proof =>
    (readField fs "timestamp" deserializeU64).bind fun timestamp =>
    (readField fs "nonce" deserializeU64).bind fun nonce =>
    (readOptField fs "signature" deserializeBytes).bind fun signature =>
    (readOptField fs "fee" deserializeU128).bind fun fee =>
    (readOptField fs "metadata" deserializeStringMap).bind fun metadata =>
    .ok ⟨id, from_chain, to_chain, payload, proof, timestamp, nonce,
      signature, fee, metadata⟩
  | _ => .error "FrostMessage: expected object"

/-- Serde(serialize) for `MessageEvent`. -/
def serializeMessageEvent (e : MessageEvent) : Json :=
  .obj [("message", serializeFrostMessage e.message),
        ("tx_hash", serializeOption serializeBytes e.tx_hash),
        ("block_number", serializeOption (fun n => .num n.val) e.block_number)]

/-- Serde(deserialize) for `MessageEvent`. -/
def deserializeMessageEvent (j : Json) : Except String MessageEvent :=
  match j with
  | .obj fs =>
    (readField fs "message" deserializeFrostMessage).bind fun message =>
    (readOptField fs "tx_hash" deserializeBytes).bind fun tx_hash =>
    (readOptField fs "block_number" deserializeU64).bind fun block_number =>
    .ok ⟨message, tx_hash, block_number⟩
  | _ => .error "MessageEvent: expected object"

/-! ## Round-trip lemmas for the serialization layer -/

theorem exceptBind_ok {ε α β : Type} (a : α) (f : α → Except ε β) :
    (Except.ok a).bind f = f a := rfl

theorem deserializeByteItems_roundtrip (bs : List (Fin 256)) :
    deserializeByteItems (bs.map fun b => Json.num b.val) = .ok bs := by
  induction bs with
  | nil => rfl
  | cons b bs ih =>
    simp only [List.map_cons, deserializeByteItems, deserializeByte]
    rw [dif_pos b.isLt]
    simp only [exceptBind_ok, ih]

theorem deserializeBytes_roundtrip (bs : List (Fin 256)) :
    deserializeBytes (serializeBytes bs) = .ok bs := by
  simp only [serializeBytes, deserializeBytes, deserializeByteItems_roundtrip]

theorem deserializeU64_roundtrip (n : Fin (2 ^ 64)) :
    deserializeU64 (.num n.val) = .ok n := by
  simp only [deserializeU64]
  rw [dif_pos n.isLt]

theorem deserializeU128_roundtrip (n : Fin (2 ^ 128)) :
    deserializeU128 (.num n.val) = .ok n := by
  simp only [deserializeU128]
  rw [dif_pos n.isLt]

theorem deserializeStringEntries_roundtrip (kvs : List (String × String)) :
    deserializeStringEntries (kvs.map fun p => (p.1, .str p.2)) = .ok kvs := by
  induction kvs with
  | nil => rfl
  | cons p rest ih =>
    obtain ⟨k, v⟩ := p
    simp only [List.map_cons, deserializeStringEntries, ih, exceptBind_ok]

theorem deserializeStringMap_roundtrip (kvs : List (String × String)) :
    deserializeStringMap (serializeStringMap kvs) = .ok kvs := by
  simp only [serializeStringMap, deserializeStringMap,
    deserializeStringEntries_roundtrip]

theorem isNull_serializeBytes (bs : List (Fin 256)) :
    (serializeBytes bs).isNull = false := rfl

theorem isNull_serializeStringMap (kvs : List (String × String)) :
    (serializeStringMap kvs).isNull = false := rfl

theorem isNull_serializeProof (p : Proof) :
    (serializeProof p).isNull = false := rfl

theorem isNull_num (n : Nat) : (Json.num n).isNull = false := rfl

theorem isNull_null : Json.isNull .null = true := rfl

theorem deserializeProof_roundtrip (p : Proof) :
    deserializeProof (serializeProof p) = .ok p := by
  obtain ⟨data, ⟨raw⟩⟩ := p
  simp [serializeProof, deserializeProof, List.lookup,
    deserializeBytes_roundtrip, exceptBind_ok]

theorem deserializeFrostMessage_roundtrip (m : FrostMessage) :
    deserializeFrostMessage (serializeFrostMessage m) = .ok m := by
  obtain ⟨id, fc, tc, payload, proof, ts, nonce, sig, fee, md⟩ := m
  cases proof <;> cases sig <;> cases fee <;> cases md <;>
    simp [serializeFrostMessage, deserializeFrostMessage, readField,
      readOptField, List.lookup, serializeOption, isNull_null,
      isNull_serializeBytes, isNull_serializeStringMap, isNull_serializeProof,
      isNull_num, deserializeUuid_roundtrip, deserializeChainId_roundtrip,
      deserializeBytes_roundtrip, deserializeU64_roundtrip,
      deserializeU128_roundtrip, deserializeProof_roundtrip,
      deserializeStringMap_roundtrip, exceptBind_ok]

theorem deserializeMessageEvent_roundtrip (e : MessageEvent) :
    deserializeMessageEvent (serializeMessageEvent e) = .ok e := by
  obtain ⟨m, tx, bn⟩ := e
  cases tx <;> cases bn <;>
    simp [serializeMessageEvent, deserializeMessageEvent, readField,
      readOptField, List.lookup, serializeOption, isNull_null,
      isNull_serializeBytes, isNull_num,
      deserializeFrostMessage_roundtrip, deserializeBytes_roundtrip,
      deserializeU64_roundtrip, exceptBind_ok]

/-! ## Concrete sample values used by witnesses -/

/-- A concrete random source: the stream of draws 0, 1, 2, ... -/
def sampleRand : RandState :=
  ⟨fun k => ⟨k % 2 ^ 128, Nat.mod_lt _ (by norm_num)⟩, 0⟩

/-- A concrete envelope: the construction scenario of the spec test
(`from_chain=Ethereum, to_chain=Solana, payload=b"test-payload" shortened to
[], nonce=1, timestamp=1725000000`). -/
def sampleMessage : FrostMessage :=
  (FrostMessage.new .Ethereum .Solana [] ⟨1, by norm_num⟩
    ⟨1725000000, by norm_num⟩ sampleRand).1

/-! ## The claims -/

/-- C1: For every FrostMessage envelope, in every optional-field
configuration, serializing and then deserializing yields an envelope whose
every field (id, from_chain, to_chain, payload, proof, timestamp, nonce,
signature, fee, metadata) equals the corresponding field of the original,
with absent optionals deserializing back to absent. -/
theorem c1_envelope_roundtrip (m : FrostMessage) :
    ∃ m2, deserializeFrostMessage (serializeFrostMessage m) = .ok m2 ∧
      m2.id = m.id ∧ m2.from_chain = m.from_chain ∧ m2.to_chain = m.to_chain ∧
      m2.payload = m.payload ∧ m2.proof = m.proof ∧
      m2.timestamp = m.timestamp ∧ m2.nonce = m.nonce ∧
      m2.signature = m.signature ∧ m2.fee = m.fee ∧
      m2.metadata = m.metadata :=
  ⟨m, deserializeFrostMessage_roundtrip m, rfl, rfl, rfl, rfl, rfl, rfl, rfl,
    rfl, rfl, rfl⟩

/-- C2: `ChainId::try_from` on a u64 is total and never fails: every input
returns `Ok` of some chain, and every input outside {0, 1, 2} returns
`Ok(ChainId::Unknown)`. -/
theorem c2_try_from_total (v : Nat) (hv : v < 2 ^ 64) :
    (∃ c, ChainId.try_from v = .ok c) ∧
    (v ≠ 0 → v ≠ 1 → v ≠ 2 → ChainId.try_from v = .ok .Unknown) := by
  rcases v with _ | _ | _ | n
  · exact ⟨⟨.Ethereum, rfl⟩, fun h _ _ => absurd rfl h⟩
  · exact ⟨⟨.Polkadot, rfl⟩, fun _ h _ => absurd rfl h⟩
  · exact ⟨⟨.Solana, rfl⟩, fun _ _ h => absurd rfl h⟩
  · exact ⟨⟨.Unknown, rfl⟩, fun _ _ _ => rfl⟩

/-- Witness for C2 at the concrete input 7. -/
theorem c2_try_from_total_witness :
    7 < 2 ^ 64 ∧
    ((∃ c, ChainId.try_from 7 = .ok c) ∧
      (7 ≠ 0 → 7 ≠ 1 → 7 ≠ 2 → ChainId.try_from 7 = .ok .Unknown)) :=
  ⟨by norm_num, c2_try_from_total 7 (by norm_num)⟩

/-- C3: `ChainId::to_u64` maps Ethereum to 0, Polkadot to 1, Solana to 2,
and Unknown to `u64::MAX`; and decoding `u64::MAX` yields Unknown. -/
theorem c3_to_u64_mapping :
    ChainId.to_u64 .Ethereum = 0 ∧ ChainId.to_u64 .Polkadot = 1 ∧
    ChainId.to_u64 .Solana = 2 ∧ ChainId.to_u64 .Unknown = 2 ^ 64 - 1 ∧
    ChainId.try_from (2 ^ 64 - 1) = .ok .Unknown :=
  ⟨rfl, rfl, rfl, rfl, rfl⟩

/-- C4: decoding the numeric encoding returns the original variant for every
ChainId variant, Unknown included. -/
theorem c4_chainid_roundtrip (c : ChainId) :
    ChainId.try_from c.to_u64 = .ok c := by
  cases c <;> rfl

/-- C5: `FrostMessage::new` is total, assigns the freshly generated id, and
initializes proof, signature, fee and metadata to `None`, for every choice
of arguments and random-source state. -/
theorem c5_new_initializes (fc tc : ChainId) (payload : List (Fin 256))
    (nonce timestamp : Fin (2 ^ 64)) (s : RandState) :
    (FrostMessage.new fc tc payload nonce timestamp s).1.proof = none ∧
    (FrostMessage.new fc tc payload nonce timestamp s).1.signature = none ∧
    (FrostMessage.new fc tc payload nonce timestamp s).1.fee = none ∧
    (FrostMessage.new fc tc payload nonce timestamp s).1.metadata = none ∧
    (FrostMessage.new fc tc payload nonce timestamp s).1.id = (uuidNewV4 s).1 :=
  ⟨rfl, rfl, rfl, rfl, rfl⟩

/-- C6: deserializing a message whose chain-identifier field carries an
unrecognized variant yields `ChainId::Unknown` rather than an error, for
every unrecognized value, leaving the other fields intact. -/
theorem c6_unknown_chain_deserializes (m : FrostMessage) (s : String)
    (h1 : s ≠ "Ethereum") (h2 : s ≠ "Polkadot") (h3 : s ≠ "Solana") :
    deserializeFrostMessage (.obj
      [("id", .str (uuidToString m.id)),
       ("from_chain", .str s),
       ("to_chain", serializeChainId m.to_chain),
       ("payload", serializeBytes m.payload),
       ("proof", serializeOption serializeProof m.proof),
       ("timestamp", .num m.timestamp.val),
       ("nonce", .num m.nonce.val),
       ("signature", serializeOption serializeBytes m.signature),
       ("fee", serializeOption (fun f => .num f.val) m.fee),
       ("metadata", serializeOption serializeStringMap m.metadata)]) =
    .ok { m with from_chain := .Unknown } := by
  have hs : deserializeChainId (.str s) = .ok .Unknown := by
    simp [deserializeChainId, h1, h2, h3]
  obtain ⟨id, fc, tc, payload, proof, ts, nonce, sig, fee, md⟩ := m
  cases proof <;> cases sig <;> cases fee <;> cases md <;>
    simp [deserializeFrostMessage, readField, readOptField, List.lookup,
      serializeOption, isNull_null, isNull_serializeBytes,
      isNull_serializeStringMap, isNull_serializeProof, isNull_num, hs,
      deserializeUuid_roundtrip, deserializeChainId_roundtrip,
      deserializeBytes_roundtrip, deserializeU64_roundtrip,
      deserializeU128_roundtrip, deserializeProof_roundtrip,
      deserializeStringMap_roundtrip, exceptBind_ok]

/-- Witness for C6: the unrecognized variant string Bitcoin on a concrete
envelope. -/
theorem c6_unknown_chain_deserializes_witness :
    ("Bitcoin" ≠ "Ethereum" ∧ "Bitcoin" ≠ "Polkadot" ∧
      "Bitcoin" ≠ "Solana") ∧
    deserializeFrostMessage (.obj
      [("id", .str (uuidToString sampleMessage.id)),
       ("from_chain", .str "Bitcoin"),
       ("to_chain", serializeChainId sampleMessage.to_chain),
       ("payload", serializeBytes sampleMessage.payload),
       ("proof", serializeOption serializeProof sampleMessage.proof),
       ("timestamp", .num sampleMessage.timestamp.val),
       ("nonce", .num sampleMessage.nonce.val),
       ("signature", serializeOption serializeBytes sampleMessage.signature),
       ("fee", serializeOption (fun f => .num f.val) sampleMessage.fee),
       ("metadata", serializeOption serializeStringMap sampleMessage.metadata)]) =
    .ok { sampleMessage with from_chain := .Unknown } :=
  ⟨⟨by decide, by decide, by decide⟩,
    c6_unknown_chain_deserializes sampleMessage "Bitcoin"
      (by decide) (by decide) (by decide)⟩

/-- C7: two envelopes constructed by two successive calls of
`FrostMessage::new` with identical arguments have different ids, whenever
the two fresh UUID draws of the random source differ (the construction takes
its id exactly from the fresh draw and from nothing else). -/
theorem c7_distinct_ids (fc tc : ChainId) (payload : List (Fin 256))
    (nonce timestamp : Fin (2 ^ 64)) (s : RandState)
    (h : (uuidNewV4 s).1 ≠ (uuidNewV4 (uuidNewV4 s).2).1) :
    (FrostMessage.new fc tc payload nonce timestamp s).1.id ≠
      (FrostMessage.new fc tc payload nonce timestamp
        (FrostMessage.new fc tc payload nonce timestamp s).2).1.id :=
  h

/-- Witness for C7 on a concrete random source. -/
theorem c7_distinct_ids_witness :
    (uuidNewV4 sampleRand).1 ≠ (uuidNewV4 (uuidNewV4 sampleRand).2).1 ∧
    (FrostMessage.new .Ethereum .Solana [] ⟨1, by norm_num⟩
        ⟨1725000000, by norm_num⟩ sampleRand).1.id ≠
      (FrostMessage.new .Ethereum .Solana [] ⟨1, by norm_num⟩
        ⟨1725000000, by norm_num⟩
        (FrostMessage.new .Ethereum .Solana [] ⟨1, by norm_num⟩
          ⟨1725000000, by norm_num⟩ sampleRand).2).1.id :=
  ⟨by decide, c7_distinct_ids .Ethereum .Solana [] ⟨1, by norm_num⟩
    ⟨1725000000, by norm_num⟩ sampleRand (by decide)⟩

/-- C8: a MessageEvent built with `tx_hash = None` and `block_number = None`
round-trips through serialization with both fields still absent. -/
theorem c8_event_roundtrip_absent (m : FrostMessage) :
    ∃ e2, deserializeMessageEvent
        (serializeMessageEvent ⟨m, none, none⟩) = .ok e2 ∧
      e2.tx_hash = none ∧ e2.block_number = none ∧ e2.message = m :=
  ⟨⟨m, none, none⟩, deserializeMessageEvent_roundtrip ⟨m, none, none⟩,
    rfl, rfl, rfl⟩

/-- C9: the `chain_specific_data` accessor of the CrossChainMessage
implementation for FrostMessage returns `None` for every envelope. -/
theorem c9_chain_specific_data_none (m : FrostMessage) :
    CrossChainMessage.chain_specific_data m = none :=
  rfl

/-- C10: `FrostMessage::new` stores its arguments unchanged, the `id()`
accessor returns the id field, and the `payload()` accessor returns exactly
the payload bytes passed in. -/
theorem c10_new_stores_arguments (fc tc : ChainId) (payload : List (Fin 256))
    (nonce timestamp : Fin (2 ^ 64)) (s : RandState) :
    (FrostMessage.new fc tc payload nonce timestamp s).1.from_chain = fc ∧
    (FrostMessage.new fc tc payload nonce timestamp s).1.to_chain = tc ∧
    (FrostMessage.new fc tc payload nonce timestamp s).1.payload = payload ∧
    (FrostMessage.new fc tc payload nonce timestamp s).1.nonce = nonce ∧
    (FrostMessage.new fc tc payload nonce timestamp s).1.timestamp = timestamp ∧
    CrossChainMessage.id (FrostMessage.new fc tc payload nonce timestamp s).1 =
      (FrostMessage.new fc tc payload nonce timestamp s).1.id ∧
    CrossChainMessage.payload
      (FrostMessage.new fc tc payload nonce timestamp s).1 = payload :=
  ⟨rfl, rfl, rfl, rfl, rfl, rfl, rfl⟩

end Frostgate
